import Mathlib

/-! Shallow embedding of the topology resolver and recommendation engine of the
open_ireland_mgmt backend (`backend/scheduler/services/topology_resolver.py` and
`backend/scheduler/services/recommendation_engine.py`).

Conventions used throughout:
* Timestamps are modelled as integer minutes since 1970-01-01T00:00 (UTC), so
  `datetime` comparisons become integer comparisons, `timedelta(minutes=1)`
  becomes `+ 1` and `timedelta(days=d)` becomes `+ d * 1440`.
  1970-01-01 was a Thursday, hence the `+ 3` in `weekdayOf` below
  (Python `datetime.weekday()` has Monday = 0).
* Python floats are modelled as exact rationals.  Every value this code rounds
  with `round(x, 2)` is an exact multiple of 1/100 at the places where rounding
  matters for the claims, where every rounding rule agrees, so `round(x, 2)` is
  modelled by `round2` (half-up on exact rationals).
* Python dicts with a fixed key set are modelled as structures.  The one key
  that is read with a default but never written by the producers in this code
  (`nm.get('available', False)` in the recommendation engine, on node-mapping
  dicts built by the resolver) is modelled as an `Option Bool` field
  `available_key`, `none` meaning "key absent".
* Python's stable `list.sort(key=k, reverse=True)` is modelled by
  `List.insertionSort (fun a b => k b ≤ k a)`: a stable sort is uniquely
  determined by the key order and stability, and this insertion sort is stable.
-/

/-- Statuses the scheduler treats as blocking a device
(`["PENDING", "CONFIRMED", "CONFLICTING"]` in both source files). -/
def activeStatuses : List String := ["PENDING", "CONFIRMED", "CONFLICTING"]

/-! ### Python string primitives

The statuses and device types this code compares are ASCII, so Python's
`str.lower`/`str.strip`/`str.split` are modelled character-structurally
(core `String` functions recurse on byte positions, which Lean's kernel
cannot evaluate). -/

/-- ASCII lowercasing of one character (Python `str.lower` on the ASCII
vocabulary this code uses). -/
def pyLowerChar (c : Char) : Char :=
  if decide ('A' ≤ c) && decide (c ≤ 'Z') then Char.ofNat (c.toNat + 32) else c

/-- Python `s.lower()`. -/
def pyLower (s : String) : String := String.mk (s.data.map pyLowerChar)

/-- Python truthiness of a string: non-empty. -/
def pyIsEmpty (s : String) : Bool := s.data.isEmpty

/-- Python `str.isspace` characters relevant to `str.strip`. -/
def isPySpace (c : Char) : Bool :=
  c == ' ' || c == '\t' || c == '\n' || c == '\r'
    || c == Char.ofNat 11 || c == Char.ofNat 12

/-- Python `s.strip()`. -/
def pyStrip (s : String) : String :=
  String.mk (((s.data.dropWhile isPySpace).reverse.dropWhile isPySpace).reverse)

def splitCharAux (sep : Char) : List Char → List Char → List String
  | [], cur => [String.mk cur.reverse]
  | c :: rest, cur =>
    if c == sep then String.mk cur.reverse :: splitCharAux sep rest []
    else splitCharAux sep rest (c :: cur)

/-- Python `s.split(sep)` for a one-character separator (the only kind this
code uses). -/
def pySplitChar (sep : Char) (s : String) : List String :=
  splitCharAux sep s.data []

/-- Python `sep.join(parts)`. -/
def joinSep (sep : String) : List String → String
  | [] => ""
  | [x] => x
  | x :: xs => x ++ sep ++ joinSep sep xs

/-- The numeric value of an all-digit string. -/
def digitsToNat (l : List Char) : Nat :=
  l.foldl (fun acc c => acc * 10 + (c.toNat - 48)) 0

/-- A row of `scheduler.models.Booking` as used by the resolver and the
recommendation engine (times in minutes). -/
structure Booking where
  device_id : Nat
  start_time : Int
  end_time : Int
  status : String
  deriving DecidableEq, Repr, Inhabited

/-- A row of `inventory.models.InventoryDevice` (imported as `Device`),
restricted to the fields this code reads.  Optional string fields model
nullable columns. -/
structure InventoryDevice where
  id : Nat
  deviceType : Option String
  deviceName : Option String
  ip_address : Option String
  status : Option String
  Out_Port : Option String
  In_Port : Option String
  maintenance_start : Option String
  maintenance_end : Option String
  deriving DecidableEq, Repr, Inhabited

/-! ### Dates

`_check_maintenance` parses maintenance strings with
`datetime.strptime(s, "%Y-%m-%d")`.  We model the parse as a total function to
`Option Int` (minutes at midnight of the parsed day). -/

def isLeapYear (y : Int) : Bool :=
  (y % 4 == 0 && y % 100 != 0) || (y % 400 == 0)

def daysInMonth (y : Int) (m : Nat) : Nat :=
  if m == 2 then (if isLeapYear y then 29 else 28)
  else if m == 4 || m == 6 || m == 9 || m == 11 then 30
  else 31

/-- Day count since 1970-01-01 for a (valid) civil date, the standard
era-based algorithm.  All divisions are on non-negative operands for the
years `strptime` accepts. -/
def daysFromCivil (y : Int) (m d : Nat) : Int :=
  let yAdj : Int := if m ≤ 2 then y - 1 else y
  let era : Int := (if 0 ≤ yAdj then yAdj else yAdj - 399).ediv 400
  let yoe : Int := yAdj - era * 400
  let mp : Int := if m > 2 then (m : Int) - 3 else (m : Int) + 9
  let doy : Int := (153 * mp + 2).ediv 5 + (d : Int) - 1
  let doe : Int := yoe * 365 + yoe.ediv 4 - yoe.ediv 100 + doy
  era * 146097 + doe - 719468

def isDigitStr (s : String) : Bool :=
  !(pyIsEmpty s) && s.data.all (fun c => c.isDigit)

/-- Model of `datetime.strptime(s, "%Y-%m-%d")`: three dash-separated digit
groups, month and day validated; result is minutes at midnight.  A failed
parse is `none` (the Python code catches the `ValueError`). -/
def parseDate (s : String) : Option Int :=
  match pySplitChar '-' s with
  | [ys, ms, ds] =>
    if isDigitStr ys && isDigitStr ms && isDigitStr ds
        && ys.data.length ≤ 4 && ms.data.length ≤ 2 && ds.data.length ≤ 2 then
      let y : Int := (digitsToNat ys.data : Nat)
      let m : Nat := digitsToNat ms.data
      let d : Nat := digitsToNat ds.data
      if 1 ≤ m && m ≤ 12 && 1 ≤ d && d ≤ daysInMonth y m then
        some (daysFromCivil y m d * 1440)
      else none
    else none
  | _ => none

/-! ### Availability oracle (`TopologyResolver`) -/

/-- Model of `device.status and device.status.lower() in bad`:
a `None` or empty status is falsy and skips the membership test. -/
def statusIn (status : Option String) (bad : List String) : Bool :=
  match status with
  | none => false
  | some s => !(pyIsEmpty s) && bad.contains (pyLower s)

/-- `TopologyResolver._check_device_availability`.  `bookings` is the
per-device list of `(start_time, end_time)` pairs; the overlap test is the
negation of `booking_end <= start or booking_start >= end`. -/
def checkDeviceAvailability (device : InventoryDevice) (start stop : Int)
    (bookings : List (Int × Int)) : Bool :=
  if statusIn device.status ["maintenance", "unavailable", "broken"] then false
  else bookings.all (fun b => decide (b.2 ≤ start) || decide (b.1 ≥ stop))

/-- Model of `s.split("/")[-1] if "/" in s else s`. -/
def lastSegment (s : String) : String :=
  if (pySplitChar '/' s).length > 1 then (pySplitChar '/' s).getLastD s else s

/-- `TopologyResolver._check_maintenance`.  Parse failures fall through to
`false` (the Python code catches `ValueError`/`AttributeError`). -/
def checkMaintenance (device : InventoryDevice) (start stop : Int) : Bool :=
  if statusIn device.status ["maintenance"] then true
  else
    match device.maintenance_start, device.maintenance_end with
    | some ms, some me =>
      if !(pyIsEmpty ms) && !(pyIsEmpty me) then
        match parseDate (lastSegment ms), parseDate (lastSegment me) with
        | some maintStart, some maintStop =>
          !(decide (maintStop < start) || decide (maintStart > stop))
        | _, _ => false
      else false
    | _, _ => false

/-! ### Physical graph (`build_physical_graph`) -/

/-- The attribute record `build_physical_graph` stores on each graph node. -/
structure DeviceAttrs where
  device_id : Nat
  device_type : String
  device_name : String
  ip_address : Option String
  status : String
  out_port : Option String
  in_port : Option String
  available : Bool
  in_maintenance : Bool
  bookings : List (Int × Int)
  deriving DecidableEq, Repr, Inhabited

/-- The fixed `compatible_pairs` table of `_can_connect`. -/
def compatiblePairs : List (String × String) :=
  [("roadm", "fiber"), ("roadm", "ila"), ("roadm", "transceiver"), ("roadm", "switch"),
   ("fiber", "roadm"), ("fiber", "ila"), ("fiber", "otdr"),
   ("ila", "fiber"), ("ila", "roadm"),
   ("transceiver", "roadm"), ("transceiver", "switch"),
   ("switch", "transceiver"), ("switch", "roadm")]

/-- `TopologyResolver._can_connect`. -/
def canConnect (attrs1 attrs2 : DeviceAttrs) : Bool :=
  let type1 := pyLower attrs1.device_type
  let type2 := pyLower attrs2.device_type
  compatiblePairs.contains (type1, type2) || compatiblePairs.contains (type2, type1)

/-- The NetworkX graph: nodes in insertion order with their attributes, and
the undirected edge list. -/
structure PhysGraph where
  nodes : List DeviceAttrs
  edges : List (Nat × Nat)
  deriving DecidableEq, Repr, Inhabited

/-- `G.add_node(id, **attrs)`: replaces the attributes when the id is already
a node (keeping its position), otherwise appends. -/
def addNode (nodes : List DeviceAttrs) (a : DeviceAttrs) : List DeviceAttrs :=
  if nodes.any (fun x => x.device_id == a.device_id) then
    nodes.map (fun x => if x.device_id == a.device_id then a else x)
  else nodes ++ [a]

/-- Model of Python's `x or default` on an optional/possibly empty string. -/
def orDefault (s : Option String) (d : String) : String :=
  match s with
  | some v => if pyIsEmpty v then d else v
  | none => d

/-- The booking list `device_bookings[device_id]`: active bookings overlapping
the window (the query filter `end_time > start AND start_time < end AND
status IN (...)`), grouped by device, in query order. -/
def deviceBookingsFor (bookings : List Booking) (start stop : Int) (devId : Nat) :
    List (Int × Int) :=
  ((bookings.filter (fun b =>
      decide (b.end_time > start) && decide (b.start_time < stop)
        && activeStatuses.contains b.status)).filter
    (fun b => b.device_id == devId)).map (fun b => (b.start_time, b.end_time))

/-- The node-attribute record `build_physical_graph` computes per device. -/
def attrsOfDevice (bookings : List Booking) (start stop : Int)
    (device : InventoryDevice) : DeviceAttrs :=
  let devBookings := deviceBookingsFor bookings start stop device.id
  let isAvailable := checkDeviceAvailability device start stop devBookings
  let inMaintenance := checkMaintenance device start stop
  { device_id := device.id
    device_type := orDefault device.deviceType "Unknown"
    device_name := orDefault device.deviceName ("Device-" ++ toString device.id)
    ip_address := device.ip_address
    status := orDefault device.status "Available"
    out_port := device.Out_Port
    in_port := device.In_Port
    available := isAvailable && !inMaintenance
    in_maintenance := inMaintenance
    bookings := devBookings }

/-- The ordered pairs `(i, j)` with `i < j` over the node list, as the
`for i ... for dev_id2 in device_nodes[i+1:]` double loop enumerates them. -/
def allPairs : List DeviceAttrs → List (DeviceAttrs × DeviceAttrs)
  | [] => []
  | x :: xs => xs.map (fun y => (x, y)) ++ allPairs xs

/-- `TopologyResolver.build_physical_graph`. -/
def buildPhysicalGraph (devices : List InventoryDevice) (bookings : List Booking)
    (start stop : Int) : PhysGraph :=
  let nodes := devices.foldl
    (fun acc dev => addNode acc (attrsOfDevice bookings start stop dev)) []
  let edges := ((allPairs nodes).filter (fun p => canConnect p.1 p.2)).map
    (fun p => (p.1.device_id, p.2.device_id))
  { nodes := nodes, edges := edges }

/-- `G.has_edge` on the undirected graph. -/
def hasEdge (g : PhysGraph) (a b : Nat) : Bool :=
  g.edges.any (fun e => (e.1 == a && e.2 == b) || (e.1 == b && e.2 == a))

/-- `device_id in G` / `G.nodes` membership. -/
def memberNode (g : PhysGraph) (a : Nat) : Bool :=
  g.nodes.any (fun x => x.device_id == a)

/-- `G.nodes[device_id]` lookup. -/
def findNode (g : PhysGraph) (a : Nat) : Option DeviceAttrs :=
  g.nodes.find? (fun x => x.device_id == a)

/-! ### Shortest paths

`nx.has_path` / `nx.shortest_path` on the unweighted undirected graph is
breadth-first search; `path_length = len(path) - 1` is the edge count of a
shortest path, `0` when source equals target. -/

def neighborsOf (g : PhysGraph) (v : Nat) : List Nat :=
  g.edges.foldr (fun e acc =>
    if e.1 == v then e.2 :: acc else if e.2 == v then e.1 :: acc else acc) []

/-- One BFS with fuel: `frontier` is the set of nodes at distance `dist`. -/
def bfsAux (g : PhysGraph) (target : Nat) :
    Nat → List Nat → List Nat → Nat → Option Nat
  | 0, _, _, _ => none
  | _ + 1, [], _, _ => none
  | fuel + 1, frontier, visited, dist =>
    if frontier.contains target then some dist
    else
      let grown := visited ++ frontier
      let next := ((frontier.foldr (fun v acc => neighborsOf g v ++ acc) []).filter
        (fun w => !grown.contains w)).dedup
      bfsAux g target fuel next grown (dist + 1)

/-- Edge count of a shortest path from `s` to `t`, `none` if unreachable.
Callers check node membership first (NetworkX raises `NodeNotFound` there). -/
def bfsDist (g : PhysGraph) (s t : Nat) : Option Nat :=
  bfsAux g t (g.nodes.length + 1) [s] [] 0

/-! ### Candidate matcher (`match_logical_node`) -/

/-- A logical-node `parameters` dict (only the keys this code reads). -/
structure Params where
  vendor : Option String := none
  ports : Option String := none
  length : Option String := none
  gain : Option String := none
  deriving DecidableEq, Repr, Inhabited

/-- Python truthiness of `params.get(key)` for a string-valued parameter. -/
def truthyStr (o : Option String) : Bool :=
  match o with
  | some s => !(pyIsEmpty s)
  | none => false

/-- A logical topology node (`logical_node.get('deviceType', '')` etc. are
modelled as total fields, absence being the empty default). -/
structure LogicalNode where
  id : String
  deviceType : String
  parameters : Params := {}
  deriving DecidableEq, Repr, Inhabited

/-- A logical topology edge; `id` is optional
(`edge.get('id', f"{source}-{target}")` supplies the default). -/
structure LogicalEdge where
  id : Option String := none
  source : String
  target : String
  deriving DecidableEq, Repr, Inhabited

/-- A candidate dict as built by `match_logical_node`. -/
structure Candidate where
  device_id : Nat
  device_name : String
  device_type : String
  fit_score : ℚ
  explanation : String
  available : Bool
  deriving DecidableEq, Repr, Inhabited

/-- `TopologyResolver._compute_fit_score`.  The `vendor` and `ports`
parameters are read but have no observable effect on score or explanation
(the `int()` conversion of a malformed `ports` value, which would raise, is
not modelled). -/
def computeFitScore (logicalNode : LogicalNode) (physicalAttrs : DeviceAttrs)
    (logicalEdges : List LogicalEdge) : ℚ × String :=
  let factors := ["Type match: ✓"]
  if !physicalAttrs.available then
    (0, joinSep " | "
      (factors ++ ["Availability: ✗ (not available in time range)"]))
  else
    let factors := factors ++ ["Availability: ✓"]
    let status := pyLower physicalAttrs.status
    let score : ℚ := 1
    let scoreFactors :=
      if status == "available" then (score, factors ++ ["Status: ✓"])
      else if status == "maintenance" then
        (score * 0, factors ++ ["Status: ✗ (maintenance)"])
      else (score, factors ++ ["Status: " ++ status])
    let score := scoreFactors.1
    let factors := scoreFactors.2
    let paramFactors : List String :=
      (if truthyStr logicalNode.parameters.length then ["Length: acceptable"] else [])
      ++ (if truthyStr logicalNode.parameters.gain then ["Gain: acceptable"] else [])
    let factors :=
      if paramFactors.isEmpty then factors
      else factors ++ ["Attributes: " ++ joinSep " | " paramFactors]
    let factors :=
      if logicalEdges.isEmpty then factors else factors ++ ["Connections: compatible"]
    (score, joinSep " | " factors)

/-- Python's stable `list.sort(key=key, reverse=True)`: the unique stable
descending reordering by `key`. -/
def pySortDesc {α : Type} (key : α → ℚ) (l : List α) : List α :=
  List.insertionSort (fun a b => key b ≤ key a) l

/-- Python's stable ascending sort by an integer key (the
`order_by(end_time.asc())` of the forecaster, modelled as stable). -/
def pySortAsc {α : Type} (key : α → Int) (l : List α) : List α :=
  List.insertionSort (fun a b => key a ≤ key b) l

/-- The candidate list `match_logical_node` accumulates before sorting:
for each id, skip ids absent from the graph, filter by case-insensitive
trimmed type equality, and build the candidate dict. -/
def matchRaw (logicalNode : LogicalNode) (g : PhysGraph)
    (availableDevices : List Nat) (logicalEdges : List LogicalEdge) : List Candidate :=
  let logicalType := pyStrip logicalNode.deviceType
  availableDevices.filterMap (fun deviceId =>
    match findNode g deviceId with
    | none => none
    | some attrs =>
      let physicalType := pyStrip attrs.device_type
      if pyLower physicalType == pyLower logicalType then
        let fs := computeFitScore logicalNode attrs logicalEdges
        some { device_id := deviceId
               device_name := attrs.device_name
               device_type := physicalType
               fit_score := fs.1
               explanation := fs.2
               available := attrs.available }
      else none)

/-- `TopologyResolver.match_logical_node` (the `if not self.physical_graph`
guard triggers on an empty graph, NetworkX truthiness being the node count). -/
def matchLogicalNode (logicalNode : LogicalNode) (g : PhysGraph)
    (availableDevices : List Nat) (logicalEdges : List LogicalEdge) : List Candidate :=
  if g.nodes.isEmpty then []
  else pySortDesc (fun c => c.fit_score)
    (matchRaw logicalNode g availableDevices logicalEdges)

/-! ### Node and link mappings -/

/-- A node-mapping dict as built by the three strategies.  `available_key`
models the `'available'` dict key, which none of the producers writes. -/
structure NodeMapping where
  logical_node_id : String
  physical_device_id : Nat
  physical_device_name : String
  physical_device_type : String
  fit_score : ℚ
  confidence : String
  alternatives : List Candidate
  explanation : String
  available_key : Option Bool
  deriving DecidableEq, Repr, Inhabited

/-- The confidence label: `'high' if fit >= 0.8 else 'medium' if fit >= 0.5
else 'low'`. -/
def confidenceOf (fitScore : ℚ) : String :=
  if fitScore ≥ 8/10 then "high" else if fitScore ≥ 5/10 then "medium" else "low"

/-- The node-mapping dict each strategy appends (no `'available'` key). -/
def mkNodeMapping (logicalId : String) (best : Candidate)
    (alts : List Candidate) : NodeMapping :=
  { logical_node_id := logicalId
    physical_device_id := best.device_id
    physical_device_name := best.device_name
    physical_device_type := best.device_type
    fit_score := best.fit_score
    confidence := confidenceOf best.fit_score
    alternatives := alts
    explanation := best.explanation
    available_key := none }

/-- A link-mapping dict as built by `_generate_link_mappings`. -/
structure LinkMapping where
  logical_edge_id : String
  source_mapping : String
  target_mapping : String
  physical_link_id : Option String
  fit_score : ℚ
  explanation : String
  deriving DecidableEq, Repr, Inhabited

/-- `round(q, 2)` (all values rounded at the claim-relevant places are exact
multiples of 1/100, where half-up and Python's rounding agree). -/
def round2 (q : ℚ) : ℚ := (⌊q * 100 + 1/2⌋ : ℚ) / 100

/-- The dict comprehension `{nm['logical_node_id']: nm['physical_device_id']
for nm in node_mappings}`: the last occurrence of a logical id wins. -/
def nodeLookup (nodeMappings : List NodeMapping) (logicalId : String) : Option Nat :=
  (nodeMappings.reverse.find? (fun nm => nm.logical_node_id == logicalId)).map
    (fun nm => nm.physical_device_id)

/-- Python truthiness of `node_lookup.get(...)`: `None` and the integer `0`
are both falsy. -/
def truthyId : Option Nat → Bool
  | some n => n != 0
  | none => false

/-- The path-based score `max(0.5, 1.0 - (path_length - 1) * 0.2)` (the
argument is an `Int` because Python evaluates `path_length - 1 = -1` when
source and target coincide). -/
def scoreOfPathLength (pathLength : Int) : ℚ :=
  max (1/2) (1 - ((pathLength : ℚ) - 1) * (1/5))

/-- The body of the `for edge in logical_edges` loop of
`_generate_link_mappings`. -/
def linkMapOne (g : PhysGraph) (nodeMappings : List NodeMapping)
    (edge : LogicalEdge) : LinkMapping :=
  let sourceLogical := edge.source
  let targetLogical := edge.target
  let edgeId := edge.id.getD (sourceLogical ++ "-" ++ targetLogical)
  let sourcePhysical := nodeLookup nodeMappings sourceLogical
  let targetPhysical := nodeLookup nodeMappings targetLogical
  let fitExpl : ℚ × String :=
    if truthyId sourcePhysical && truthyId targetPhysical then
      let sp := sourcePhysical.getD 0
      let tp := targetPhysical.getD 0
      if hasEdge g sp tp then (1, "Direct physical connection")
      else if memberNode g sp && memberNode g tp then
        match bfsDist g sp tp with
        | some pathLength =>
          (scoreOfPathLength pathLength,
           "Indirect connection (path length: " ++ toString pathLength ++ ")")
        | none => (3/10, "No physical path (may require additional configuration)")
      else (3/10, "No physical path")
    else (0, "Source or target device not mapped")
  { logical_edge_id := edgeId
    source_mapping := sourceLogical
    target_mapping := targetLogical
    physical_link_id :=
      if truthyId sourcePhysical && truthyId targetPhysical then
        some ("link-" ++ toString (sourcePhysical.getD 0) ++ "-"
          ++ toString (targetPhysical.getD 0))
      else none
    fit_score := round2 fitExpl.1
    explanation := fitExpl.2 }

/-- `TopologyResolver._generate_link_mappings`. -/
def generateLinkMappings (logicalEdges : List LogicalEdge)
    (nodeMappings : List NodeMapping) (g : PhysGraph) : List LinkMapping :=
  logicalEdges.map (linkMapOne g nodeMappings)

/-! ### Mapping strategies -/

/-- A topology-mapping dict as returned by the strategies. -/
structure TopologyMapping where
  mapping_id : String
  total_fit_score : ℚ
  node_mappings : List NodeMapping
  link_mappings : List LinkMapping
  notes : String
  deriving DecidableEq, Repr, Inhabited

/-- `sum(scores)/len(scores) if scores else 0`. -/
def meanOrZero (l : List ℚ) : ℚ :=
  if l.isEmpty then 0 else l.sum / (l.length : ℚ)

/-- The `total_fit_score` each strategy computes:
`0.7 * mean(node scores) + 0.3 * mean(link scores)`. -/
def totalFitScore (nodeMappings : List NodeMapping)
    (linkMappings : List LinkMapping) : ℚ :=
  meanOrZero (nodeMappings.map (fun nm => nm.fit_score)) * (7/10)
    + meanOrZero (linkMappings.map (fun lm => lm.fit_score)) * (3/10)

/-- The greedy/connection-optimized candidate restriction: devices not yet
used, falling back to the full available list when that is empty. -/
def greedyCandidates (availableDevices usedDevices : List Nat) : List Nat :=
  let c := availableDevices.filter (fun d => !usedDevices.contains d)
  if c.isEmpty then availableDevices else c

/-- The node loop of `_generate_greedy_mapping`, accumulating used devices
and node mappings; `none` models the `return None` on an unmatched node. -/
def greedyLoop (g : PhysGraph) (logicalEdges : List LogicalEdge)
    (availableByType : String → List Nat) :
    List LogicalNode → List Nat → List NodeMapping → Option (List NodeMapping)
  | [], _, acc => some acc
  | logicalNode :: rest, usedDevices, acc =>
    let candidates :=
      greedyCandidates (availableByType (pyLower logicalNode.deviceType)) usedDevices
    match matchLogicalNode logicalNode g candidates logicalEdges with
    | [] => none
    | best :: others =>
      greedyLoop g logicalEdges availableByType rest (best.device_id :: usedDevices)
        (acc ++ [mkNodeMapping logicalNode.id best (others.take 3)])

/-- `TopologyResolver._generate_greedy_mapping`. -/
def generateGreedyMapping (logicalNodes : List LogicalNode)
    (logicalEdges : List LogicalEdge) (availableByType : String → List Nat)
    (g : PhysGraph) (strategyName : String) : Option TopologyMapping :=
  (greedyLoop g logicalEdges availableByType logicalNodes [] []).map
    (fun nodeMappings =>
      let linkMappings := generateLinkMappings logicalEdges nodeMappings g
      { mapping_id := strategyName
        total_fit_score := round2 (totalFitScore nodeMappings linkMappings)
        node_mappings := nodeMappings
        link_mappings := linkMappings
        notes := "Greedy best-fit mapping. All nodes matched to best available devices." })

/-- `device_usage_count[id]` of the balanced strategy (a `defaultdict(int)`). -/
def usageCount (usage : List (Nat × Nat)) (deviceId : Nat) : Nat :=
  (((usage.find? (fun u => u.1 == deviceId)).map (fun u => u.2)).getD 0)

/-- `device_usage_count[id] += 1`. -/
def bumpUsage (usage : List (Nat × Nat)) (deviceId : Nat) : List (Nat × Nat) :=
  if usage.any (fun u => u.1 == deviceId) then
    usage.map (fun u => if u.1 == deviceId then (u.1, u.2 + 1) else u)
  else usage ++ [(deviceId, 1)]

/-- The node loop of `_generate_balanced_mapping`: each candidate's score is
penalized by `0.1 × usage` for selection only (the stored `fit_score` is the
unpenalized one). -/
def balancedLoop (g : PhysGraph) (logicalEdges : List LogicalEdge)
    (availableByType : String → List Nat) :
    List LogicalNode → List (Nat × Nat) → List NodeMapping → Option (List NodeMapping)
  | [], _, acc => some acc
  | logicalNode :: rest, usage, acc =>
    let availableDevices := availableByType (pyLower logicalNode.deviceType)
    if availableDevices.isEmpty then none
    else
      let matchList := matchLogicalNode logicalNode g availableDevices logicalEdges
      if matchList.isEmpty then none
      else
        let scoredMatches := matchList.map (fun c =>
          (c.fit_score - (usageCount usage c.device_id : ℚ) * (1/10), c))
        let sorted := pySortDesc (fun p => p.1) scoredMatches
        let best := sorted.head!.2
        balancedLoop g logicalEdges availableByType rest (bumpUsage usage best.device_id)
          (acc ++ [mkNodeMapping logicalNode.id best
            ((sorted.tail.take 3).map (fun p => p.2))])

/-- `TopologyResolver._generate_balanced_mapping`. -/
def generateBalancedMapping (logicalNodes : List LogicalNode)
    (logicalEdges : List LogicalEdge) (availableByType : String → List Nat)
    (g : PhysGraph) (strategyName : String) : Option TopologyMapping :=
  (balancedLoop g logicalEdges availableByType logicalNodes [] []).map
    (fun nodeMappings =>
      let linkMappings := generateLinkMappings logicalEdges nodeMappings g
      { mapping_id := strategyName
        total_fit_score := round2 (totalFitScore nodeMappings linkMappings)
        node_mappings := nodeMappings
        link_mappings := linkMappings
        notes := "Balanced distribution mapping. Tries to use different devices when possible." })

def insertIfAbsent (l : List String) (s : String) : List String :=
  if l.contains s then l else l ++ [s]

/-- The `logical_adj` sets of the connection-optimized strategy.  The bonus
below adds one contribution per distinct neighbor, independently of the
Python set's iteration order, so a duplicate-free list is an equivalent
model of the set. -/
def logicalAdjacency (logicalEdges : List LogicalEdge) (logicalId : String) :
    List String :=
  logicalEdges.foldl (fun acc edge =>
    let acc2 := if edge.source == logicalId then insertIfAbsent acc edge.target else acc
    if edge.target == logicalId then insertIfAbsent acc2 edge.source else acc2) []

/-- The `connection_bonus` accumulation: `+0.1` for each logical neighbor for
which some already-built node mapping with that logical id is assigned a
device sharing a physical edge with `deviceId` (the `break` fires only after
a successful edge test, so duplicated logical ids are searched through). -/
def connectionBonus (g : PhysGraph) (nodeMappings : List NodeMapping)
    (neighbors : List String) (deviceId : Nat) : ℚ :=
  (1/10) * ((neighbors.countP (fun neighborId =>
    nodeMappings.any (fun nm =>
      nm.logical_node_id == neighborId
        && hasEdge g deviceId nm.physical_device_id))) : ℚ)

/-- The node loop of `_generate_connection_optimized_mapping`: matches are
re-scored with the connection bonus (capped at 1.0), re-sorted, and the
boosted scores are what is stored in the node mapping. -/
def connOptLoop (g : PhysGraph) (logicalEdges : List LogicalEdge)
    (availableByType : String → List Nat) :
    List LogicalNode → List Nat → List NodeMapping → Option (List NodeMapping)
  | [], _, acc => some acc
  | logicalNode :: rest, usedDevices, acc =>
    let candidates :=
      greedyCandidates (availableByType (pyLower logicalNode.deviceType)) usedDevices
    let matchList := matchLogicalNode logicalNode g candidates logicalEdges
    if matchList.isEmpty then none
    else
      let neighbors := logicalAdjacency logicalEdges logicalNode.id
      let boosted := matchList.map (fun c =>
        { c with
          fit_score := min 1 (c.fit_score + connectionBonus g acc neighbors c.device_id) })
      let sorted := pySortDesc (fun c => c.fit_score) boosted
      let best := sorted.head!
      connOptLoop g logicalEdges availableByType rest (best.device_id :: usedDevices)
        (acc ++ [mkNodeMapping logicalNode.id best (sorted.tail.take 3)])

/-- `TopologyResolver._generate_connection_optimized_mapping`. -/
def generateConnectionOptimizedMapping (logicalNodes : List LogicalNode)
    (logicalEdges : List LogicalEdge) (availableByType : String → List Nat)
    (g : PhysGraph) (strategyName : String) : Option TopologyMapping :=
  (connOptLoop g logicalEdges availableByType logicalNodes [] []).map
    (fun nodeMappings =>
      let linkMappings := generateLinkMappings logicalEdges nodeMappings g
      { mapping_id := strategyName
        total_fit_score := round2 (totalFitScore nodeMappings linkMappings)
        node_mappings := nodeMappings
        link_mappings := linkMappings
        notes := "Connection-optimized mapping. Prefers physically connected devices." })

/-! ### `resolve_topology` -/

/-- The `available_by_type` dictionary built in `resolve_topology`:
ids of available graph nodes, keyed by lowercased device type, in node
order; a missing key yields `[]` (`defaultdict(list)`). -/
def availableByTypeOf (g : PhysGraph) (t : String) : List Nat :=
  ((g.nodes.filter (fun a => a.available)).filter
    (fun a => pyLower a.device_type == t)).map (fun a => a.device_id)

/-- `TopologyResolver.resolve_topology` (with the database read represented
by the `devices` and `bookings` lists). -/
def resolveTopology (logicalNodes : List LogicalNode)
    (logicalEdges : List LogicalEdge) (dateRangeStart dateRangeEnd : Int)
    (devices : List InventoryDevice) (bookings : List Booking)
    (numOptions : Nat) : List TopologyMapping :=
  let g := buildPhysicalGraph devices bookings dateRangeStart dateRangeEnd
  if g.nodes.isEmpty then []
  else
    let abt := availableByTypeOf g
    let mappingOptions :=
      [generateGreedyMapping logicalNodes logicalEdges abt g "greedy-best-fit",
       generateBalancedMapping logicalNodes logicalEdges abt g "balanced-distribution",
       generateConnectionOptimizedMapping logicalNodes logicalEdges abt g
         "connection-optimized"].filterMap id
    (pySortDesc (fun m => m.total_fit_score) mappingOptions).take numOptions

/-! ### Recommendation engine (the pieces the claims are about) -/

/-- `RecommendationEngine._calculate_availability_score`: the fraction of
node mappings whose `'available'` key is truthy (default `False`). -/
def calculateAvailabilityScore (mapping : TopologyMapping) : ℚ :=
  if mapping.node_mappings.isEmpty then 0
  else
    ((mapping.node_mappings.countP (fun nm => nm.available_key.getD false)) : ℚ)
      / (mapping.node_mappings.length : ℚ)

/-- `t.date()` as a day number (Python floor division). -/
def dayOf (t : Int) : Int := t.ediv 1440

/-- `t.weekday()` (Monday = 0; 1970-01-01 was a Thursday). -/
def weekdayOf (t : Int) : Int := (dayOf t + 3).emod 7

/-- `RecommendationEngine._get_time_based_adjustment`. -/
def getTimeBasedAdjustment (start stop : Int) : ℚ :=
  let startWeekday := weekdayOf start
  let endWeekday := weekdayOf stop
  let daysSpan := dayOf stop - dayOf start
  let adjustment : ℚ := 0
  let adjustment :=
    if startWeekday ≥ 5 ∨ endWeekday ≥ 5 ∨ daysSpan > 5 then adjustment - 2/100
    else adjustment
  if daysSpan > 7 then adjustment - 1/100 else adjustment

/-- `RecommendationEngine._check_current_availability` (note: unlike the
resolver's oracle, the bad-status list here omits `'broken'`). -/
def checkCurrentAvailability (device : InventoryDevice) (start stop : Int)
    (bookings : List Booking) : Bool :=
  if statusIn device.status ["maintenance", "unavailable"] then false
  else
    !(bookings.any (fun b =>
      b.device_id == device.id && decide (b.end_time > start)
        && decide (b.start_time < stop) && activeStatuses.contains b.status))

/-- The query filter of `_find_earliest_available_slot`: active bookings of
the device whose end time lies in `(from_time, from_time + window_days]`. -/
def slotFiltered (deviceId : Nat) (fromTime : Int) (windowDays : Nat)
    (bookings : List Booking) : List Booking :=
  bookings.filter (fun b =>
    b.device_id == deviceId && decide (b.end_time > fromTime)
      && decide (b.end_time ≤ fromTime + (windowDays : Int) * 1440)
      && activeStatuses.contains b.status)

/-- `max(b.end_time for b in bookings)` (callers use it on non-empty lists). -/
def maxEndTime : List Booking → Int
  | [] => 0
  | b :: rest => rest.foldl (fun acc x => max acc x.end_time) b.end_time

/-- The gap-searching loop of `_find_earliest_available_slot`. -/
def gapScan : Int → List Booking → Option Int
  | _, [] => none
  | currentTime, booking :: rest =>
    if currentTime < booking.start_time then some currentTime
    else gapScan (max currentTime booking.end_time) rest

/-- `RecommendationEngine._find_earliest_available_slot` (the `order_by`
modelled as a stable ascending sort by end time). -/
def findEarliestAvailableSlot (deviceId : Nat) (fromTime : Int)
    (windowDays : Nat) (bookings : List Booking) : Option Int :=
  let windowEnd := fromTime + (windowDays : Int) * 1440
  let sorted := pySortAsc (fun b => b.end_time)
    (slotFiltered deviceId fromTime windowDays bookings)
  if sorted.isEmpty then some fromTime
  else
    let lastBookingEnd := maxEndTime sorted
    if lastBookingEnd < windowEnd then some (lastBookingEnd + 1)
    else gapScan fromTime sorted

/-! ### Concrete fixtures used by the closed theorems below -/

/-- An available ROADM inventory device with no maintenance. -/
def devR : InventoryDevice :=
  { id := 1, deviceType := some "ROADM", deviceName := some "Roadm-1",
    ip_address := none, status := some "Available", Out_Port := none, In_Port := none,
    maintenance_start := none, maintenance_end := none }

/-- A one-node logical topology requesting a ROADM. -/
def lnR : LogicalNode := { id := "n1", deviceType := "ROADM" }

/-- An available ROADM with id 5. -/
def dev5 : InventoryDevice := { devR with id := 5 }

/-- An available ROADM with id 2. -/
def dev2 : InventoryDevice := { devR with id := 2 }

/-- A device whose status is `"Broken"`. -/
def devBroken : InventoryDevice := { devR with id := 3, status := some "Broken" }

/-- Graph-node attributes for the six-node path graph below. -/
def chainAttrs (n : Nat) : DeviceAttrs :=
  { device_id := n, device_type := "node", device_name := "Device-" ++ toString n,
    ip_address := none, status := "Available", out_port := none, in_port := none,
    available := true, in_maintenance := false, bookings := [] }

/-- A path graph `1 - 2 - 3 - 4 - 5 - 6` (an input to
`_generate_link_mappings`, which takes the graph as a parameter). -/
def chainGraph : PhysGraph :=
  { nodes := [chainAttrs 1, chainAttrs 2, chainAttrs 3, chainAttrs 4,
      chainAttrs 5, chainAttrs 6],
    edges := [(1, 2), (2, 3), (3, 4), (4, 5), (5, 6)] }

/-- A minimal node mapping assigning `devId` to logical node `lid`. -/
def mkSimpleNM (lid : String) (devId : Nat) : NodeMapping :=
  { logical_node_id := lid, physical_device_id := devId, physical_device_name := "",
    physical_device_type := "", fit_score := 1, confidence := "high",
    alternatives := [], explanation := "", available_key := none }

/-- A `CONFIRMED` booking for device 1 in the middle of a window. -/
def bkMid : Booking := { device_id := 1, start_time := 120, end_time := 180, status := "CONFIRMED" }

/-- A `CONFIRMED` booking for device 1 covering exactly a 7-day horizon. -/
def bkFull : Booking := { device_id := 1, start_time := 0, end_time := 10080, status := "CONFIRMED" }

/-- A `CONFIRMED` booking for device 1 lying after the window `[0, 1440)`. -/
def bkLate : Booking := { device_id := 1, start_time := 2000, end_time := 3000, status := "CONFIRMED" }

/-- Node mappings assigning physical device 0 to `"a"` and 6 to `"b"`. -/
def nmsC9 : List NodeMapping := [mkSimpleNM "a" 0, mkSimpleNM "b" 6]

/-- The logical edge from `"a"` to `"b"`. -/
def edgeC9 : LogicalEdge := { source := "a", target := "b" }

/-- Node mappings assigning device 1 to `"a"` and 3 to `"b"` (two hops apart
in `chainGraph`). -/
def nmsC3w : List NodeMapping := [mkSimpleNM "a" 1, mkSimpleNM "b" 3]

/-- The first mapping `resolve_topology` returns for one ROADM node, one
available ROADM device and the non-overlapping booking `bkLate`. -/
def mC2 : TopologyMapping :=
  (resolveTopology [lnR] [] 0 1440 [devR] [bkLate] 3).head!

/-- The node mapping inside `mC2`. -/
def nmC2 : NodeMapping := mC2.node_mappings.head!

/-! ### General lemmas about the embedding -/

theorem mem_pySortDesc {α : Type} (key : α → ℚ) (l : List α) (a : α) :
    a ∈ pySortDesc key l ↔ a ∈ l := by
  unfold pySortDesc
  exact List.mem_insertionSort _

theorem length_pySortDesc {α : Type} (key : α → ℚ) (l : List α) :
    (pySortDesc key l).length = l.length :=
  (List.perm_insertionSort _ l).length_eq

theorem mem_pySortAsc {α : Type} (key : α → Int) (l : List α) (a : α) :
    a ∈ pySortAsc key l ↔ a ∈ l := by
  unfold pySortAsc
  exact List.mem_insertionSort _

theorem length_pySortAsc {α : Type} (key : α → Int) (l : List α) :
    (pySortAsc key l).length = l.length :=
  (List.perm_insertionSort _ l).length_eq

/-! Batteries marks the `Rat` arithmetic operations `@[irreducible]`, which
blocks `decide`'s elaboration-time evaluation (the kernel itself reduces them
fine).  Restore the default reducibility for them. -/
attribute [local semireducible] Rat.mul Rat.inv Rat.add Rat.sub

/-! ### Closed counterexample and evaluation theorems -/

/-- C1: on the mapping `resolve_topology` produces for one logical ROADM node
and one available ROADM device (no bookings), every strategy's mapping is
non-empty, every graph node is available — yet the recommendation ranker's
availability axis score is `0`, not `1`: the node mappings carry no
`'available'` key, so `nm.get('available', False)` is always `False`. -/
theorem c1_availability_score_always_zero :
    (resolveTopology [lnR] [] 0 1440 [devR] [] 3).length = 3 ∧
    ((resolveTopology [lnR] [] 0 1440 [devR] [] 3).all (fun m =>
      decide (calculateAvailabilityScore m = 0) && !m.node_mappings.isEmpty)) = true ∧
    ((buildPhysicalGraph [devR] [] 0 1440).nodes.all (fun a => a.available)) = true := by
  refine ⟨by decide, by decide, by decide⟩

/-- C3 counterexample: in the path graph `1-2-3-4-5-6`, the logical edge
`a-b` is resolved over a 5-hop shortest path and `c-b` over a 4-hop shortest
path, and both receive fit score `0.5` — a 5-hop shortest path does not score
strictly less than a 4-hop one. -/
theorem c3_counterexample :
    bfsDist chainGraph 1 6 = some 5 ∧ bfsDist chainGraph 2 6 = some 4 ∧
    (generateLinkMappings [{ source := "a", target := "b" }, { source := "c", target := "b" }]
      [mkSimpleNM "a" 1, mkSimpleNM "b" 6, mkSimpleNM "c" 2] chainGraph).map
        (fun lm => lm.fit_score) = [1/2, 1/2] ∧
    ¬ ((1 : ℚ)/2 < 1/2) := by
  refine ⟨by decide, by decide, by decide, by decide⟩

/-- C4 counterexample: device 1 has a single active reservation
`[120, 180)` inside the 7-day window starting at `0`; the instant `0` is not
covered by any scanned reservation, yet `_find_earliest_available_slot`
returns `181` (one minute after the latest scanned end), not the first
uncovered instant `0`. -/
theorem c4_counterexample :
    findEarliestAvailableSlot 1 0 7 [bkMid] = some 181 ∧
    ([bkMid].all (fun b =>
      !(decide (b.start_time ≤ 0) && decide ((0 : Int) < b.end_time)))) = true := by
  refine ⟨by decide, by decide⟩

/-- C5 counterexample: for the degenerate window `[10, 5)` (end before
start), one available ROADM device with no reservations, and a one-node
logical topology, `resolve_topology` returns three mappings — not the empty
result the claim requires. -/
theorem c5_counterexample :
    (5 : Int) ≤ 10 ∧ (resolveTopology [lnR] [] 10 5 [devR] [] 3).length = 3 := by
  refine ⟨by decide, by decide⟩

/-- C6 counterexample: two available ROADM devices with ids 5 and 2 both
score `1.0`; called with the candidate list `[5, 2]`,
`match_logical_node` returns them in input order `[5, 2]` — equal-score
candidates are not sorted ascending by device id. -/
theorem c6_counterexample :
    ((matchLogicalNode lnR (buildPhysicalGraph [dev5, dev2] [] 0 1440) [5, 2] []).map
      (fun c => c.device_id)) = [5, 2] ∧
    ((matchLogicalNode lnR (buildPhysicalGraph [dev5, dev2] [] 0 1440) [5, 2] []).map
      (fun c => c.fit_score)) = [1, 1] := by
  refine ⟨by decide, by decide⟩

/-- C7 counterexample: the window from Wednesday 1970-01-07 (day 6) to
Monday 1970-01-12 (day 11) contains Saturday (day 9, weekday 5) and Sunday,
but spans exactly 5 days and starts/ends on weekdays, so
`_get_time_based_adjustment` returns `0`, not `-0.02`. -/
theorem c7_counterexample :
    getTimeBasedAdjustment (6 * 1440) (11 * 1440) = 0 ∧
    weekdayOf (9 * 1440) = 5 ∧ (6 : Int) * 1440 ≤ 9 * 1440 ∧ (9 : Int) * 1440 ≤ 11 * 1440 := by
  refine ⟨by decide, by decide, by decide, by decide⟩

/-- C8: a device with status `"Broken"` and no reservations is reported as
currently available by the forecaster's `_check_current_availability`
(its bad-status list omits `'broken'`), while the resolver's availability
oracle `_check_device_availability` rejects the same device — the forecaster
does not follow the Oracle. -/
theorem c8_broken_reported_available :
    checkCurrentAvailability devBroken 0 1440 [] = true ∧
    checkDeviceAvailability devBroken 0 1440 [] = false := by
  refine ⟨by decide, by decide⟩

/-! ### C7: closed form of the time-based adjustment -/

/-- C7 (amended): `_get_time_based_adjustment` is `-0.02` exactly when the
window's start day or end day falls on a weekend or the window spans more
than 5 calendar days, plus a further `-0.01` when it spans more than 7 days;
windows containing a weekend only strictly inside, spanning at most 5 days,
get no penalty. -/
theorem c7_amended (start stop : Int) :
    getTimeBasedAdjustment start stop =
      (if weekdayOf start ≥ 5 ∨ weekdayOf stop ≥ 5 ∨ dayOf stop - dayOf start > 5
        then (-2/100 : ℚ) else 0)
      + (if dayOf stop - dayOf start > 7 then (-1/100 : ℚ) else 0) := by
  unfold getTimeBasedAdjustment
  by_cases h1 : weekdayOf start ≥ 5 ∨ weekdayOf stop ≥ 5 ∨ dayOf stop - dayOf start > 5
  · by_cases h2 : dayOf stop - dayOf start > 7
    · simp only [if_pos h1, if_pos h2]
      norm_num
    · simp only [if_pos h1, if_neg h2]
      norm_num
  · by_cases h2 : dayOf stop - dayOf start > 7
    · simp only [if_neg h1, if_pos h2]
      norm_num
    · simp only [if_neg h1, if_neg h2]
      norm_num

/-! ### C9: device id 0 is treated as unmapped -/

/-- C9: when a logical edge's endpoint is mapped to the physical device with
id `0`, the link resolver's truthiness test treats it as unmapped even though
both endpoints are present in the node lookup: the link mapping gets
fit score `0.0`, explanation `"Source or target device not mapped"`, and a
null `physical_link_id`. -/
theorem c9_device_zero_treated_unmapped (g : PhysGraph)
    (nodeMappings : List NodeMapping) (edge : LogicalEdge) (sp tp : Nat)
    (hs : nodeLookup nodeMappings edge.source = some sp)
    (ht : nodeLookup nodeMappings edge.target = some tp)
    (h0 : sp = 0 ∨ tp = 0) :
    (linkMapOne g nodeMappings edge).fit_score = 0 ∧
    (linkMapOne g nodeMappings edge).explanation = "Source or target device not mapped" ∧
    (linkMapOne g nodeMappings edge).physical_link_id = none := by
  have hcond : (truthyId (nodeLookup nodeMappings edge.source)
      && truthyId (nodeLookup nodeMappings edge.target)) = false := by
    rw [hs, ht]
    rcases h0 with h | h <;> subst h <;> simp [truthyId]
  refine ⟨?_, ?_, ?_⟩
  all_goals simp only [linkMapOne, hcond, Bool.false_eq_true, if_false]
  all_goals norm_num [round2]

/-- C9 witness: the concrete edge `a-b` with `a` mapped to device 0. -/
theorem c9_witness :
    (linkMapOne chainGraph nmsC9 edgeC9).fit_score = 0 ∧
    (linkMapOne chainGraph nmsC9 edgeC9).explanation = "Source or target device not mapped" ∧
    (linkMapOne chainGraph nmsC9 edgeC9).physical_link_id = none :=
  c9_device_zero_treated_unmapped chainGraph nmsC9 edgeC9 0 6 (by decide) (by decide)
    (Or.inl rfl)

/-! ### C3: link scores as a function of shortest-path length -/

/-- C3 (amended): for a logical edge with both endpoints mapped to nonzero
device ids, a direct physical edge scores `1.0`; a shortest path of `k` hops
scores `max(0.5, 1.0 - (k-1)*0.2)`, which is strictly decreasing in `k` only
for `2 ≤ k ≤ 4` and constant at `0.5` for every `k ≥ 4`; an unreachable pair
scores `0.3`, strictly below the score of any path of at most 3 hops. -/
theorem c3_amended (g : PhysGraph) (nodeMappings : List NodeMapping)
    (edge : LogicalEdge) (sp tp : Nat)
    (hs : nodeLookup nodeMappings edge.source = some sp)
    (ht : nodeLookup nodeMappings edge.target = some tp)
    (hsz : sp ≠ 0) (htz : tp ≠ 0) :
    (hasEdge g sp tp = true → (linkMapOne g nodeMappings edge).fit_score = 1) ∧
    (∀ k : Nat, hasEdge g sp tp = false → memberNode g sp = true →
      memberNode g tp = true → bfsDist g sp tp = some k →
      (linkMapOne g nodeMappings edge).fit_score = round2 (scoreOfPathLength (k : Int))) ∧
    (∀ k : Int, 2 ≤ k → k ≤ 4 →
      round2 (scoreOfPathLength k) < round2 (scoreOfPathLength (k - 1))) ∧
    (∀ k : Int, 4 ≤ k → scoreOfPathLength k = 1/2) ∧
    (hasEdge g sp tp = false → memberNode g sp = true → memberNode g tp = true →
      bfsDist g sp tp = none → (linkMapOne g nodeMappings edge).fit_score = 3/10) ∧
    (∀ k : Int, 1 ≤ k → k ≤ 3 → 3/10 < round2 (scoreOfPathLength k)) := by
  have hts : truthyId (some sp) = true := by simp [truthyId, hsz]
  have htt : truthyId (some tp) = true := by simp [truthyId, htz]
  refine ⟨?_, ?_, ?_, ?_, ?_, ?_⟩
  · intro he
    simp only [linkMapOne, hs, ht, hts, htt, Option.getD_some, he, Bool.and_self,
      if_true]
    decide
  · intro k he hm1 hm2 hbfs
    simp only [linkMapOne, hs, ht, hts, htt, Option.getD_some, he, hm1, hm2,
      hbfs, Bool.and_self, Bool.false_eq_true, if_false, if_true]
  · intro k h2 h4
    interval_cases k
    all_goals decide
  · intro k hk
    have hc : (4 : ℚ) ≤ (k : ℚ) := by exact_mod_cast hk
    unfold scoreOfPathLength
    apply max_eq_left
    linarith
  · intro he hm1 hm2 hbfs
    simp only [linkMapOne, hs, ht, hts, htt, Option.getD_some, he, hm1, hm2,
      hbfs, Bool.and_self, Bool.false_eq_true, if_false, if_true]
    decide
  · intro k h1 h3
    interval_cases k
    all_goals decide

/-- C3 witness: in the path graph, devices 1 and 3 are two hops apart and the
edge between their logical nodes scores `round2 (scoreOfPathLength 2)`. -/
theorem c3_witness :
    (linkMapOne chainGraph nmsC3w { source := "a", target := "b" }).fit_score
      = round2 (scoreOfPathLength ((2 : Nat) : Int)) :=
  (c3_amended chainGraph nmsC3w { source := "a", target := "b" } 1 3 (by decide) (by decide)
    (by decide) (by decide)).2.1 2 (by decide) (by decide) (by decide) (by decide)

/-! ### C4: the earliest-available-slot scan -/

/-- If every booking in the list starts at or before `c0 ≤ c`, the gap scan
finds no gap. -/
theorem gapScan_none (c0 : Int) (l : List Booking)
    (hall : ∀ b ∈ l, b.start_time ≤ c0) :
    ∀ c : Int, c0 ≤ c → gapScan c l = none := by
  induction l with
  | nil => intro c _; rfl
  | cons b rest ih =>
    intro c hc
    have hb : b.start_time ≤ c0 := hall b (by simp)
    unfold gapScan
    rw [if_neg (by omega)]
    exact ih (fun x hx => hall x (by simp [hx])) (max c b.end_time)
      (le_trans hc (le_max_left c b.end_time))

/-- C4 (amended): `_find_earliest_available_slot` scans the active
reservations whose end lies in `(from, from + window_days]`; with none it
returns `from`; when the latest scanned end is strictly before the horizon it
returns that end plus one minute (regardless of earlier gaps); and when the
scanned reservations all start at or before `from` and the latest reaches the
horizon — a fully booked device — it returns `none`. -/
theorem c4_amended (deviceId : Nat) (fromTime : Int) (windowDays : Nat)
    (bookings : List Booking) :
    (slotFiltered deviceId fromTime windowDays bookings = [] →
      findEarliestAvailableSlot deviceId fromTime windowDays bookings = some fromTime) ∧
    (slotFiltered deviceId fromTime windowDays bookings ≠ [] →
      maxEndTime (pySortAsc (fun b => b.end_time)
          (slotFiltered deviceId fromTime windowDays bookings))
        < fromTime + (windowDays : Int) * 1440 →
      findEarliestAvailableSlot deviceId fromTime windowDays bookings
        = some (maxEndTime (pySortAsc (fun b => b.end_time)
            (slotFiltered deviceId fromTime windowDays bookings)) + 1)) ∧
    ((∀ b ∈ slotFiltered deviceId fromTime windowDays bookings,
        b.start_time ≤ fromTime) →
      slotFiltered deviceId fromTime windowDays bookings ≠ [] →
      ¬ (maxEndTime (pySortAsc (fun b => b.end_time)
          (slotFiltered deviceId fromTime windowDays bookings))
        < fromTime + (windowDays : Int) * 1440) →
      findEarliestAvailableSlot deviceId fromTime windowDays bookings = none) := by
  refine ⟨?_, ?_, ?_⟩
  · intro h
    simp [findEarliestAvailableSlot, h, pySortAsc]
  · intro hne hlt
    have hSne : pySortAsc (fun b => b.end_time)
        (slotFiltered deviceId fromTime windowDays bookings) ≠ [] := by
      intro hcontra
      apply hne
      have := length_pySortAsc (fun b : Booking => b.end_time)
        (slotFiltered deviceId fromTime windowDays bookings)
      rw [hcontra] at this
      exact List.length_eq_zero.mp this.symm
    simp only [findEarliestAvailableSlot]
    rw [if_neg (by simpa [List.isEmpty_iff] using hSne), if_pos hlt]
  · intro hall hne hnlt
    have hSne : pySortAsc (fun b => b.end_time)
        (slotFiltered deviceId fromTime windowDays bookings) ≠ [] := by
      intro hcontra
      apply hne
      have := length_pySortAsc (fun b : Booking => b.end_time)
        (slotFiltered deviceId fromTime windowDays bookings)
      rw [hcontra] at this
      exact List.length_eq_zero.mp this.symm
    have hallS : ∀ b ∈ pySortAsc (fun b => b.end_time)
        (slotFiltered deviceId fromTime windowDays bookings),
        b.start_time ≤ fromTime := by
      intro b hb
      exact hall b ((mem_pySortAsc (fun b : Booking => b.end_time) _ b).mp hb)
    simp only [findEarliestAvailableSlot]
    rw [if_neg (by simpa [List.isEmpty_iff] using hSne), if_neg hnlt]
    exact gapScan_none fromTime _ hallS fromTime le_rfl

/-- C4 witness: a device fully booked by a single confirmed reservation
`[0, 10080)` covering the 7-day horizon from `0` yields `none`
(the spec's Scenario 5 shape). -/
theorem c4_witness : findEarliestAvailableSlot 1 0 7 [bkFull] = none :=
  (c4_amended 1 0 7 [bkFull]).2.2 (by decide) (by decide) (by decide)

/-! ### C5: degenerate windows -/

set_option maxHeartbeats 2000000 in
/-- C5 (amended): a degenerate window (`end ≤ start`) does not raise and is
not treated as zero capacity: with one available ROADM device, no
reservations, and a one-node ROADM topology, `resolve_topology` returns all
three strategy mappings for every such window (the result does not depend on
the window at all when no reservation or maintenance date overlaps it). -/
theorem c5_amended (s e : Int) (_h : e ≤ s) :
    (resolveTopology [lnR] [] s e [devR] [] 3).length = 3 := by
  have hresolve : resolveTopology [lnR] [] s e [devR] [] 3
      = resolveTopology [lnR] [] 10 5 [devR] [] 3 := by rfl
  rw [hresolve]
  decide

/-- C5 witness: the degenerate window `[20, 3)` still yields three mappings. -/
theorem c5_witness : (resolveTopology [lnR] [] 20 3 [devR] [] 3).length = 3 :=
  c5_amended 20 3 (by decide)

/-! ### C6: sortedness and stability of the candidate matcher -/

theorem sorted_pySortDesc {α : Type} (key : α → ℚ) (l : List α) :
    List.Sorted (fun a b => key b ≤ key a) (pySortDesc key l) := by
  haveI : IsTotal α (fun a b => key b ≤ key a) := ⟨fun a b => le_total (key b) (key a)⟩
  haveI : IsTrans α (fun a b => key b ≤ key a) := ⟨fun a b c hab hbc => le_trans hbc hab⟩
  exact List.sorted_insertionSort _ l

/-- Inserting `x` into `l` with the stable descending order touches the
per-score-class filters only by appending `x` to its own class. -/
theorem filter_orderedInsert {α : Type} (key : α → ℚ) (q : ℚ) (x : α) (l : List α) :
    (List.orderedInsert (fun a b => key b ≤ key a) x l).filter
        (fun c => decide (key c = q))
      = if key x = q then x :: l.filter (fun c => decide (key c = q))
        else l.filter (fun c => decide (key c = q)) := by
  induction l with
  | nil =>
    by_cases hx : key x = q
    all_goals simp [List.orderedInsert, hx]
  | cons y ys ih =>
    by_cases hxy : key y ≤ key x
    · have step : List.orderedInsert (fun a b => key b ≤ key a) x (y :: ys)
          = x :: y :: ys := by
        simp [List.orderedInsert, hxy]
      rw [step]
      by_cases hx : key x = q
      all_goals by_cases hy : key y = q
      all_goals simp [List.filter_cons, hx, hy]
    · have step : List.orderedInsert (fun a b => key b ≤ key a) x (y :: ys)
          = y :: List.orderedInsert (fun a b => key b ≤ key a) x ys := by
        simp [List.orderedInsert, hxy]
      rw [step]
      by_cases hx : key x = q
      · have hy : ¬ (key y = q) := by
          intro hyq
          exact hxy (by rw [hyq, hx])
        simp [List.filter_cons, hy, hx, ih]
      · simp [List.filter_cons, hx, ih]

/-- The stable descending sort leaves each equal-score class in input
order. -/
theorem filter_pySortDesc {α : Type} (key : α → ℚ) (q : ℚ) (l : List α) :
    (pySortDesc key l).filter (fun c => decide (key c = q))
      = l.filter (fun c => decide (key c = q)) := by
  unfold pySortDesc
  induction l with
  | nil => rfl
  | cons x xs ih =>
    rw [List.insertionSort, filter_orderedInsert]
    by_cases hx : key x = q
    · simp [hx, ih, List.filter_cons]
    · simp [hx, ih, List.filter_cons]

theorem matchRaw_nil_of_empty (logicalNode : LogicalNode) (g : PhysGraph)
    (availableDevices : List Nat) (logicalEdges : List LogicalEdge)
    (hg : g.nodes.isEmpty = true) :
    matchRaw logicalNode g availableDevices logicalEdges = [] := by
  have hnodes : g.nodes = [] := List.isEmpty_iff.mp hg
  unfold matchRaw
  rw [List.filterMap_eq_nil_iff]
  intro a _
  simp [findNode, hnodes]

/-- C6 (amended): `match_logical_node` returns the candidates sorted
descending by fit score, and candidates with equal fit score keep the
relative order of the accumulated candidate list (Python's sort is stable) —
not ascending device-id order. -/
theorem c6_amended (logicalNode : LogicalNode) (g : PhysGraph)
    (availableDevices : List Nat) (logicalEdges : List LogicalEdge) :
    List.Sorted (fun a b : Candidate => b.fit_score ≤ a.fit_score)
      (matchLogicalNode logicalNode g availableDevices logicalEdges) ∧
    ∀ q : ℚ,
      (matchLogicalNode logicalNode g availableDevices logicalEdges).filter
        (fun c => decide (c.fit_score = q))
      = (matchRaw logicalNode g availableDevices logicalEdges).filter
        (fun c => decide (c.fit_score = q)) := by
  unfold matchLogicalNode
  by_cases hg : g.nodes.isEmpty
  · simp only [hg, if_true]
    refine ⟨List.sorted_nil, fun q => ?_⟩
    rw [matchRaw_nil_of_empty logicalNode g availableDevices logicalEdges hg]
  · simp only [hg, Bool.false_eq_true, if_false]
    exact ⟨sorted_pySortDesc (fun c : Candidate => c.fit_score) _,
      fun q => filter_pySortDesc (fun c : Candidate => c.fit_score) q _⟩

/-! ### C2: availability exclusion lemmas -/

theorem mem_matchLogicalNode_device (logicalNode : LogicalNode) (g : PhysGraph)
    (availableDevices : List Nat) (logicalEdges : List LogicalEdge) (c : Candidate)
    (hc : c ∈ matchLogicalNode logicalNode g availableDevices logicalEdges) :
    c.device_id ∈ availableDevices := by
  unfold matchLogicalNode at hc
  split at hc
  · exact absurd hc (by simp)
  · rw [mem_pySortDesc] at hc
    unfold matchRaw at hc
    rw [List.mem_filterMap] at hc
    obtain ⟨deviceId, hid, hf⟩ := hc
    cases hfind : findNode g deviceId with
    | none => rw [hfind] at hf; exact absurd hf (by simp)
    | some attrs =>
      rw [hfind] at hf
      simp only at hf
      split at hf
      · obtain rfl := Option.some.inj hf
        simpa using hid
      · exact absurd hf (by simp)

theorem mem_availableByTypeOf (g : PhysGraph) (t : String) (deviceId : Nat)
    (h : deviceId ∈ availableByTypeOf g t) :
    ∃ a ∈ g.nodes, a.device_id = deviceId ∧ a.available = true := by
  unfold availableByTypeOf at h
  rw [List.mem_map] at h
  obtain ⟨a, ha, rfl⟩ := h
  rw [List.mem_filter] at ha
  obtain ⟨ha2, _⟩ := ha
  rw [List.mem_filter] at ha2
  exact ⟨a, ha2.1, rfl, ha2.2⟩

theorem mem_addNode (nodes : List DeviceAttrs) (a x : DeviceAttrs)
    (hx : x ∈ addNode nodes a) : x ∈ nodes ∨ x = a := by
  unfold addNode at hx
  split at hx
  · rw [List.mem_map] at hx
    obtain ⟨y, hy, hxy⟩ := hx
    by_cases h : (y.device_id == a.device_id) = true
    · rw [if_pos h] at hxy
      right
      exact hxy.symm
    · rw [if_neg h] at hxy
      left
      exact hxy ▸ hy
  · rw [List.mem_append] at hx
    rcases hx with h | h
    · left; exact h
    · right; simpa using h

theorem mem_foldl_addNode (f : InventoryDevice → DeviceAttrs) :
    ∀ (devs : List InventoryDevice) (acc : List DeviceAttrs) (x : DeviceAttrs),
      x ∈ devs.foldl (fun a d => addNode a (f d)) acc →
      x ∈ acc ∨ ∃ d ∈ devs, x = f d := by
  intro devs
  induction devs with
  | nil =>
    intro acc x hx
    left
    exact hx
  | cons d rest ih =>
    intro acc x hx
    rcases ih (addNode acc (f d)) x hx with hacc | ⟨d2, hd2, hxd⟩
    · rcases mem_addNode acc (f d) x hacc with h | h
      · left; exact h
      · right; exact ⟨d, by simp, h⟩
    · right; exact ⟨d2, by simp [hd2], hxd⟩

theorem mem_buildPhysicalGraph_nodes (devices : List InventoryDevice)
    (bookings : List Booking) (s e : Int) (a : DeviceAttrs)
    (ha : a ∈ (buildPhysicalGraph devices bookings s e).nodes) :
    ∃ dev ∈ devices, a = attrsOfDevice bookings s e dev := by
  unfold buildPhysicalGraph at ha
  simp only at ha
  rcases mem_foldl_addNode (attrsOfDevice bookings s e) devices [] a ha with h | h
  · exact absurd h (by simp)
  · exact h

/-- An available graph node of `build_physical_graph` has no active booking
overlapping the window under the half-open test. -/
theorem attrs_available_no_overlap (bookings : List Booking) (s e : Int)
    (dev : InventoryDevice) (b : Booking)
    (hav : (attrsOfDevice bookings s e dev).available = true)
    (hb : b ∈ bookings) (hdev : b.device_id = dev.id)
    (hst : activeStatuses.contains b.status = true) :
    ¬ (b.start_time < e ∧ b.end_time > s) := by
  rintro ⟨h1, h2⟩
  have hstm : b.status ∈ activeStatuses := by simpa using hst
  have hchk : checkDeviceAvailability dev s e
      (deviceBookingsFor bookings s e dev.id) = true := by
    have h3 : (checkDeviceAvailability dev s e (deviceBookingsFor bookings s e dev.id)
        && !(checkMaintenance dev s e)) = true := hav
    simp only [Bool.and_eq_true] at h3
    exact h3.1
  have hmem : (b.start_time, b.end_time) ∈ deviceBookingsFor bookings s e dev.id := by
    unfold deviceBookingsFor
    rw [List.mem_map]
    refine ⟨b, ?_, rfl⟩
    rw [List.mem_filter]
    refine ⟨?_, by simp [hdev]⟩
    rw [List.mem_filter]
    exact ⟨hb, by simp [h1, h2, hstm]⟩
  unfold checkDeviceAvailability at hchk
  split at hchk
  · exact absurd hchk (by simp)
  · rw [List.all_eq_true] at hchk
    have hov := hchk _ hmem
    simp only [decide_eq_true_eq, Bool.or_eq_true] at hov
    omega

theorem mem_greedyCandidates (avail used : List Nat) (x : Nat)
    (hx : x ∈ greedyCandidates avail used) : x ∈ avail := by
  simp only [greedyCandidates] at hx
  split at hx
  · exact hx
  · exact (List.mem_filter.mp hx).1

/-- Every node mapping the greedy loop emits (beyond the accumulator) carries
no `'available'` key and is assigned a device drawn from the
available-by-type table. -/
theorem greedyLoop_mem (g : PhysGraph) (logicalEdges : List LogicalEdge)
    (abt : String → List Nat) :
    ∀ (nodes : List LogicalNode) (used : List Nat) (acc out : List NodeMapping),
      greedyLoop g logicalEdges abt nodes used acc = some out →
      ∀ nm ∈ out, nm ∈ acc ∨
        (nm.available_key = none ∧ ∃ t, nm.physical_device_id ∈ abt t) := by
  intro nodes
  induction nodes with
  | nil =>
    intro used acc out h nm hnm
    obtain rfl := Option.some.inj h
    left
    exact hnm
  | cons ln rest ih =>
    intro used acc out h nm hnm
    simp only [greedyLoop] at h
    cases hmatch : matchLogicalNode ln g
        (greedyCandidates (abt (pyLower ln.deviceType)) used) logicalEdges with
    | nil =>
      rw [hmatch] at h
      exact absurd h (by simp)
    | cons best others =>
      rw [hmatch] at h
      rcases ih _ _ _ h nm hnm with hacc | hgood
      · rcases List.mem_append.mp hacc with h2 | h2
        · left; exact h2
        · right
          obtain rfl : nm = mkNodeMapping ln.id best (others.take 3) := by
            simpa using h2
          refine ⟨rfl, pyLower ln.deviceType, ?_⟩
          have hbdev : best.device_id ∈
              greedyCandidates (abt (pyLower ln.deviceType)) used :=
            mem_matchLogicalNode_device ln g _ logicalEdges best
              (by rw [hmatch]; exact List.mem_cons_self best others)
          exact mem_greedyCandidates _ _ _ hbdev
      · right; exact hgood

/-- The balanced strategy's selected candidate comes from the match list. -/
theorem balanced_best_mem (usage : List (Nat × Nat)) (matchList : List Candidate)
    (hne : matchList ≠ []) :
    ((pySortDesc (fun p : ℚ × Candidate => p.1) (matchList.map (fun c =>
        (c.fit_score - (usageCount usage c.device_id : ℚ) * (1/10), c)))).head!).2
      ∈ matchList := by
  have hlen : (pySortDesc (fun p : ℚ × Candidate => p.1) (matchList.map (fun c =>
      (c.fit_score - (usageCount usage c.device_id : ℚ) * (1/10), c)))).length
      = matchList.length := by
    rw [length_pySortDesc, List.length_map]
  have hsne : pySortDesc (fun p : ℚ × Candidate => p.1) (matchList.map (fun c =>
      (c.fit_score - (usageCount usage c.device_id : ℚ) * (1/10), c))) ≠ [] := by
    intro hc
    apply hne
    rw [hc] at hlen
    exact List.length_eq_zero.mp hlen.symm
  have hmem := List.head!_mem_self hsne
  rw [mem_pySortDesc, List.mem_map] at hmem
  obtain ⟨c, hc, hfc⟩ := hmem
  rw [← hfc]
  exact hc

/-- The connection-optimized strategy's selected candidate shares its device
id with some candidate of the match list. -/
theorem connopt_best_mem (g : PhysGraph) (acc : List NodeMapping)
    (neighbors : List String) (matchList : List Candidate) (hne : matchList ≠ []) :
    ∃ c ∈ matchList,
      ((pySortDesc (fun c : Candidate => c.fit_score) (matchList.map (fun c =>
        { c with
          fit_score := min 1 (c.fit_score
            + connectionBonus g acc neighbors c.device_id) }))).head!).device_id
        = c.device_id := by
  have hlen : (pySortDesc (fun c : Candidate => c.fit_score) (matchList.map (fun c =>
      { c with
        fit_score := min 1 (c.fit_score
          + connectionBonus g acc neighbors c.device_id) }))).length
      = matchList.length := by
    rw [length_pySortDesc, List.length_map]
  have hsne : pySortDesc (fun c : Candidate => c.fit_score) (matchList.map (fun c =>
      { c with
        fit_score := min 1 (c.fit_score
          + connectionBonus g acc neighbors c.device_id) })) ≠ [] := by
    intro hc
    apply hne
    rw [hc] at hlen
    exact List.length_eq_zero.mp hlen.symm
  have hmem := List.head!_mem_self hsne
  rw [mem_pySortDesc, List.mem_map] at hmem
  obtain ⟨c, hc, hfc⟩ := hmem
  exact ⟨c, hc, by rw [← hfc]⟩

/-- Every node mapping the balanced loop emits (beyond the accumulator)
carries no `'available'` key and is assigned a device from the
available-by-type table. -/
theorem balancedLoop_mem (g : PhysGraph) (logicalEdges : List LogicalEdge)
    (abt : String → List Nat) :
    ∀ (nodes : List LogicalNode) (usage : List (Nat × Nat)) (acc out : List NodeMapping),
      balancedLoop g logicalEdges abt nodes usage acc = some out →
      ∀ nm ∈ out, nm ∈ acc ∨
        (nm.available_key = none ∧ ∃ t, nm.physical_device_id ∈ abt t) := by
  intro nodes
  induction nodes with
  | nil =>
    intro usage acc out h nm hnm
    obtain rfl := Option.some.inj h
    left
    exact hnm
  | cons ln rest ih =>
    intro usage acc out h nm hnm
    simp only [balancedLoop] at h
    by_cases hav : (abt (pyLower ln.deviceType)).isEmpty = true
    · rw [if_pos hav] at h
      exact absurd h (by simp)
    · rw [if_neg hav] at h
      by_cases hm : (matchLogicalNode ln g (abt (pyLower ln.deviceType))
          logicalEdges).isEmpty = true
      · rw [if_pos hm] at h
        exact absurd h (by simp)
      · rw [if_neg hm] at h
        rcases ih _ _ _ h nm hnm with hacc | hgood
        · rcases List.mem_append.mp hacc with h2 | h2
          · left; exact h2
          · right
            obtain rfl := List.mem_singleton.mp h2
            refine ⟨rfl, pyLower ln.deviceType, ?_⟩
            have hbm := balanced_best_mem usage
              (matchLogicalNode ln g (abt (pyLower ln.deviceType)) logicalEdges)
              (by simpa [List.isEmpty_iff] using hm)
            exact mem_matchLogicalNode_device ln g _ logicalEdges _ hbm
        · right; exact hgood

/-- Every node mapping the connection-optimized loop emits (beyond the
accumulator) carries no `'available'` key and is assigned a device from the
available-by-type table. -/
theorem connOptLoop_mem (g : PhysGraph) (logicalEdges : List LogicalEdge)
    (abt : String → List Nat) :
    ∀ (nodes : List LogicalNode) (used : List Nat) (acc out : List NodeMapping),
      connOptLoop g logicalEdges abt nodes used acc = some out →
      ∀ nm ∈ out, nm ∈ acc ∨
        (nm.available_key = none ∧ ∃ t, nm.physical_device_id ∈ abt t) := by
  intro nodes
  induction nodes with
  | nil =>
    intro used acc out h nm hnm
    obtain rfl := Option.some.inj h
    left
    exact hnm
  | cons ln rest ih =>
    intro used acc out h nm hnm
    simp only [connOptLoop] at h
    by_cases hm : (matchLogicalNode ln g
        (greedyCandidates (abt (pyLower ln.deviceType)) used) logicalEdges).isEmpty = true
    · rw [if_pos hm] at h
      exact absurd h (by simp)
    · rw [if_neg hm] at h
      rcases ih _ _ _ h nm hnm with hacc | hgood
      · rcases List.mem_append.mp hacc with h2 | h2
        · left; exact h2
        · right
          obtain rfl := List.mem_singleton.mp h2
          refine ⟨rfl, pyLower ln.deviceType, ?_⟩
          obtain ⟨c, hc, hdc⟩ := connopt_best_mem g acc
            (logicalAdjacency logicalEdges ln.id)
            (matchLogicalNode ln g
              (greedyCandidates (abt (pyLower ln.deviceType)) used) logicalEdges)
            (by simpa [List.isEmpty_iff] using hm)
          have hcd := mem_matchLogicalNode_device ln g _ logicalEdges c hc
          have := mem_greedyCandidates _ _ _ hcd
          show ((pySortDesc (fun c : Candidate => c.fit_score) _).head!).device_id
            ∈ abt (pyLower ln.deviceType)
          rw [hdc]
          exact this
      · right; exact hgood

theorem generateGreedyMapping_nodeMappings (logicalNodes : List LogicalNode)
    (logicalEdges : List LogicalEdge) (abt : String → List Nat) (g : PhysGraph)
    (name : String) (m : TopologyMapping)
    (h : generateGreedyMapping logicalNodes logicalEdges abt g name = some m) :
    greedyLoop g logicalEdges abt logicalNodes [] [] = some m.node_mappings := by
  unfold generateGreedyMapping at h
  cases hloop : greedyLoop g logicalEdges abt logicalNodes [] [] with
  | none => rw [hloop] at h; exact absurd h (by simp)
  | some nms =>
    rw [hloop] at h
    obtain rfl := Option.some.inj (by simpa using h)
    rfl

theorem generateBalancedMapping_nodeMappings (logicalNodes : List LogicalNode)
    (logicalEdges : List LogicalEdge) (abt : String → List Nat) (g : PhysGraph)
    (name : String) (m : TopologyMapping)
    (h : generateBalancedMapping logicalNodes logicalEdges abt g name = some m) :
    balancedLoop g logicalEdges abt logicalNodes [] [] = some m.node_mappings := by
  unfold generateBalancedMapping at h
  cases hloop : balancedLoop g logicalEdges abt logicalNodes [] [] with
  | none => rw [hloop] at h; exact absurd h (by simp)
  | some nms =>
    rw [hloop] at h
    obtain rfl := Option.some.inj (by simpa using h)
    rfl

theorem generateConnOptMapping_nodeMappings (logicalNodes : List LogicalNode)
    (logicalEdges : List LogicalEdge) (abt : String → List Nat) (g : PhysGraph)
    (name : String) (m : TopologyMapping)
    (h : generateConnectionOptimizedMapping logicalNodes logicalEdges abt g name
      = some m) :
    connOptLoop g logicalEdges abt logicalNodes [] [] = some m.node_mappings := by
  unfold generateConnectionOptimizedMapping at h
  cases hloop : connOptLoop g logicalEdges abt logicalNodes [] [] with
  | none => rw [hloop] at h; exact absurd h (by simp)
  | some nms =>
    rw [hloop] at h
    obtain rfl := Option.some.inj (by simpa using h)
    rfl

/-- Every mapping `resolve_topology` returns is the output of one of the
three strategies, run against the freshly built physical graph. -/
theorem mem_resolveTopology (logicalNodes : List LogicalNode)
    (logicalEdges : List LogicalEdge) (s e : Int) (devices : List InventoryDevice)
    (bookings : List Booking) (n : Nat) (m : TopologyMapping)
    (hm : m ∈ resolveTopology logicalNodes logicalEdges s e devices bookings n) :
    generateGreedyMapping logicalNodes logicalEdges
      (availableByTypeOf (buildPhysicalGraph devices bookings s e))
      (buildPhysicalGraph devices bookings s e) "greedy-best-fit" = some m ∨
    generateBalancedMapping logicalNodes logicalEdges
      (availableByTypeOf (buildPhysicalGraph devices bookings s e))
      (buildPhysicalGraph devices bookings s e) "balanced-distribution" = some m ∨
    generateConnectionOptimizedMapping logicalNodes logicalEdges
      (availableByTypeOf (buildPhysicalGraph devices bookings s e))
      (buildPhysicalGraph devices bookings s e) "connection-optimized" = some m := by
  simp only [resolveTopology] at hm
  by_cases hg : (buildPhysicalGraph devices bookings s e).nodes.isEmpty = true
  · rw [if_pos hg] at hm
    exact absurd hm (by simp)
  · rw [if_neg hg] at hm
    have hm2 := List.take_subset n _ hm
    rw [mem_pySortDesc, List.mem_filterMap] at hm2
    obtain ⟨o, ho, hoe⟩ := hm2
    simp only [List.mem_cons, List.not_mem_nil, or_false] at ho
    rcases ho with rfl | rfl | rfl
    · left; exact hoe
    · right; left; exact hoe
    · right; right; exact hoe

/-- C2: no node mapping of any mapping returned by `resolve_topology` assigns
a device that has a pending/confirmed/conflicting reservation overlapping the
requested window under the half-open overlap test. -/
theorem c2_availability_exclusion (logicalNodes : List LogicalNode)
    (logicalEdges : List LogicalEdge) (s e : Int) (devices : List InventoryDevice)
    (bookings : List Booking) (n : Nat) (m : TopologyMapping) (nm : NodeMapping)
    (b : Booking)
    (hm : m ∈ resolveTopology logicalNodes logicalEdges s e devices bookings n)
    (hnm : nm ∈ m.node_mappings) (hb : b ∈ bookings)
    (hdev : b.device_id = nm.physical_device_id)
    (hst : activeStatuses.contains b.status = true) :
    ¬ (b.start_time < e ∧ b.end_time > s) := by
  have habt : ∃ t, nm.physical_device_id ∈
      availableByTypeOf (buildPhysicalGraph devices bookings s e) t := by
    rcases mem_resolveTopology logicalNodes logicalEdges s e devices bookings n m hm
      with hgen | hgen | hgen
    · have hloop := generateGreedyMapping_nodeMappings _ _ _ _ _ _ hgen
      rcases greedyLoop_mem _ _ _ _ _ _ _ hloop nm hnm with habs | hgood
      · exact absurd habs (by simp)
      · exact hgood.2
    · have hloop := generateBalancedMapping_nodeMappings _ _ _ _ _ _ hgen
      rcases balancedLoop_mem _ _ _ _ _ _ _ hloop nm hnm with habs | hgood
      · exact absurd habs (by simp)
      · exact hgood.2
    · have hloop := generateConnOptMapping_nodeMappings _ _ _ _ _ _ hgen
      rcases connOptLoop_mem _ _ _ _ _ _ _ hloop nm hnm with habs | hgood
      · exact absurd habs (by simp)
      · exact hgood.2
  obtain ⟨t, hmem⟩ := habt
  obtain ⟨a, hanodes, haid, haav⟩ :=
    mem_availableByTypeOf (buildPhysicalGraph devices bookings s e) t
      nm.physical_device_id hmem
  obtain ⟨dev, hdevmem, rfl⟩ :=
    mem_buildPhysicalGraph_nodes devices bookings s e a hanodes
  have hdev2 : b.device_id = dev.id := by
    rw [hdev, ← haid]
    rfl
  exact attrs_available_no_overlap bookings s e dev b haav hb hdev2 hst

/-- C2 witness: with an active booking for device 1 lying entirely after the
window `[0, 1440)`, resolve still assigns device 1, and that booking indeed
does not overlap the window. -/
theorem c2_witness : ¬ ((2000 : Int) < 1440 ∧ (3000 : Int) > 0) :=
  c2_availability_exclusion [lnR] [] 0 1440 [devR] [bkLate] 3 mC2 nmC2 bkLate
    (by decide) (by decide) (by decide) (by decide) (by decide)

/-! ### C10: empty logical node lists and emptiness of `resolve_topology` -/

theorem generateGreedyMapping_nil (logicalEdges : List LogicalEdge)
    (abt : String → List Nat) (g : PhysGraph) (name : String) :
    ∃ m, generateGreedyMapping [] logicalEdges abt g name = some m
      ∧ m.node_mappings = [] :=
  ⟨_, rfl, rfl⟩

theorem generateBalancedMapping_nil (logicalEdges : List LogicalEdge)
    (abt : String → List Nat) (g : PhysGraph) (name : String) :
    ∃ m, generateBalancedMapping [] logicalEdges abt g name = some m
      ∧ m.node_mappings = [] :=
  ⟨_, rfl, rfl⟩

theorem generateConnOptMapping_nil (logicalEdges : List LogicalEdge)
    (abt : String → List Nat) (g : PhysGraph) (name : String) :
    ∃ m, generateConnectionOptimizedMapping [] logicalEdges abt g name = some m
      ∧ m.node_mappings = [] :=
  ⟨_, rfl, rfl⟩

/-- C10: with a non-empty inventory graph and an empty logical node list,
`resolve_topology` (at its default `num_options = 3`) returns exactly three
mappings, one per strategy, each with an empty `node_mappings` list; and it
returns the empty list only when the graph has no nodes or all three
strategies fail — which, for the strategies, can only happen on a non-empty
logical node list. -/
theorem c10_resolve_empty_behaviour (devices : List InventoryDevice)
    (bookings : List Booking) (s e : Int) (logicalEdges : List LogicalEdge)
    (logicalNodes : List LogicalNode) :
    ((buildPhysicalGraph devices bookings s e).nodes ≠ [] →
      (resolveTopology [] logicalEdges s e devices bookings 3).length = 3 ∧
      ∀ m ∈ resolveTopology [] logicalEdges s e devices bookings 3,
        m.node_mappings = []) ∧
    (resolveTopology logicalNodes logicalEdges s e devices bookings 3 = [] →
      (buildPhysicalGraph devices bookings s e).nodes = [] ∨
      (logicalNodes ≠ [] ∧
        generateGreedyMapping logicalNodes logicalEdges
          (availableByTypeOf (buildPhysicalGraph devices bookings s e))
          (buildPhysicalGraph devices bookings s e) "greedy-best-fit" = none ∧
        generateBalancedMapping logicalNodes logicalEdges
          (availableByTypeOf (buildPhysicalGraph devices bookings s e))
          (buildPhysicalGraph devices bookings s e) "balanced-distribution" = none ∧
        generateConnectionOptimizedMapping logicalNodes logicalEdges
          (availableByTypeOf (buildPhysicalGraph devices bookings s e))
          (buildPhysicalGraph devices bookings s e) "connection-optimized" = none)) := by
  constructor
  · intro hne
    have hg : ¬ ((buildPhysicalGraph devices bookings s e).nodes.isEmpty = true) := by
      simpa [List.isEmpty_iff] using hne
    obtain ⟨m1, he1, hn1⟩ := generateGreedyMapping_nil logicalEdges
      (availableByTypeOf (buildPhysicalGraph devices bookings s e))
      (buildPhysicalGraph devices bookings s e) "greedy-best-fit"
    obtain ⟨m2, he2, hn2⟩ := generateBalancedMapping_nil logicalEdges
      (availableByTypeOf (buildPhysicalGraph devices bookings s e))
      (buildPhysicalGraph devices bookings s e) "balanced-distribution"
    obtain ⟨m3, he3, hn3⟩ := generateConnOptMapping_nil logicalEdges
      (availableByTypeOf (buildPhysicalGraph devices bookings s e))
      (buildPhysicalGraph devices bookings s e) "connection-optimized"
    have hopts : resolveTopology [] logicalEdges s e devices bookings 3
        = (pySortDesc (fun m => m.total_fit_score) [m1, m2, m3]).take 3 := by
      simp only [resolveTopology, if_neg hg, he1, he2, he3]
      rfl
    constructor
    · rw [hopts, List.length_take, length_pySortDesc]
      rfl
    · intro m hm
      rw [hopts] at hm
      have hm2 := List.take_subset 3 _ hm
      rw [mem_pySortDesc] at hm2
      simp only [List.mem_cons, List.not_mem_nil, or_false] at hm2
      rcases hm2 with rfl | rfl | rfl
      · exact hn1
      · exact hn2
      · exact hn3
  · intro hres
    by_cases hg : (buildPhysicalGraph devices bookings s e).nodes.isEmpty = true
    · left
      exact List.isEmpty_iff.mp hg
    · right
      simp only [resolveTopology, if_neg hg] at hres
      have hlen := congrArg List.length hres
      rw [List.length_take, length_pySortDesc] at hlen
      simp only [List.length_nil] at hlen
      have hnilL : ([generateGreedyMapping logicalNodes logicalEdges
          (availableByTypeOf (buildPhysicalGraph devices bookings s e))
          (buildPhysicalGraph devices bookings s e) "greedy-best-fit",
        generateBalancedMapping logicalNodes logicalEdges
          (availableByTypeOf (buildPhysicalGraph devices bookings s e))
          (buildPhysicalGraph devices bookings s e) "balanced-distribution",
        generateConnectionOptimizedMapping logicalNodes logicalEdges
          (availableByTypeOf (buildPhysicalGraph devices bookings s e))
          (buildPhysicalGraph devices bookings s e)
          "connection-optimized"].filterMap id) = [] := by
        apply List.length_eq_zero.mp
        omega
      rw [List.filterMap_eq_nil_iff] at hnilL
      have h1 : generateGreedyMapping logicalNodes logicalEdges
          (availableByTypeOf (buildPhysicalGraph devices bookings s e))
          (buildPhysicalGraph devices bookings s e) "greedy-best-fit" = none := by
        have := hnilL (generateGreedyMapping logicalNodes logicalEdges
          (availableByTypeOf (buildPhysicalGraph devices bookings s e))
          (buildPhysicalGraph devices bookings s e) "greedy-best-fit") (by simp)
        simpa using this
      have h2 : generateBalancedMapping logicalNodes logicalEdges
          (availableByTypeOf (buildPhysicalGraph devices bookings s e))
          (buildPhysicalGraph devices bookings s e) "balanced-distribution" = none := by
        have := hnilL (generateBalancedMapping logicalNodes logicalEdges
          (availableByTypeOf (buildPhysicalGraph devices bookings s e))
          (buildPhysicalGraph devices bookings s e) "balanced-distribution") (by simp)
        simpa using this
      have h3 : generateConnectionOptimizedMapping logicalNodes logicalEdges
          (availableByTypeOf (buildPhysicalGraph devices bookings s e))
          (buildPhysicalGraph devices bookings s e) "connection-optimized" = none := by
        have := hnilL (generateConnectionOptimizedMapping logicalNodes logicalEdges
          (availableByTypeOf (buildPhysicalGraph devices bookings s e))
          (buildPhysicalGraph devices bookings s e) "connection-optimized") (by simp)
        simpa using this
      refine ⟨?_, h1, h2, h3⟩
      intro hlnil
      subst hlnil
      obtain ⟨m1, he1, _⟩ := generateGreedyMapping_nil logicalEdges
        (availableByTypeOf (buildPhysicalGraph devices bookings s e))
        (buildPhysicalGraph devices bookings s e) "greedy-best-fit"
      rw [h1] at he1
      exact absurd he1 (by simp)

/-- C10 witness: one available device, no logical nodes — three mappings. -/
theorem c10_witness : (resolveTopology [] [] 0 1440 [devR] [] 3).length = 3 :=
  ((c10_resolve_empty_behaviour [devR] [] 0 1440 [] []).1 (by decide)).1
